import Mathlib

/-!
Verification of the Papyrus Notes backend (`main.py`).

Documents stored in the `note` collection are modelled as association
lists from field names to BSON-style values.  The handlers
`list_notes`, `delete_note`, `update_note`, `serialize_note` and
`test_database` are embedded from `main.py`.  The store adapter
(`database.py`) and the pydantic schema (`schemas.py`) are not part of
the sources; where their behaviour is needed it is modelled from the
specification, and every such definition is marked in its doc comment.
-/

namespace Papyrus

/-- BSON-style values: a stored note field or an update-payload value.
Arrays are modelled as arrays of strings, which covers every array this
backend manipulates (the `tags` field). -/
inductive Value where
  | null
  | bool (b : Bool)
  | int (n : Int)
  | str (s : String)
  | arr (elems : List String)
deriving DecidableEq, Repr

/-- A document (or an update payload): an association list from field
names to values, mirroring a Python dict / Mongo document. -/
abbrev Doc := List (String × Value)

/-- Field access, `doc.get(k)`: the value at the first occurrence of `k`. -/
def dget : Doc → String → Option Value
  | [], _ => none
  | (k', v) :: rest, k => if k' = k then some v else dget rest k

/-- Dict assignment `doc[k] = v`: replace the first binding of `k`,
or append a new binding at the end (Python dict insertion order). -/
def set_key : Doc → String → Value → Doc
  | [], k, v => [(k, v)]
  | (k', v') :: rest, k, v =>
      if k' = k then (k, v) :: rest else (k', v') :: set_key rest k v

/-- `doc.pop(k, None)`: remove the first binding of `k`. -/
def erase_key : Doc → String → Doc
  | [], _ => []
  | (k', v) :: rest, k => if k' = k then rest else (k', v) :: erase_key rest k

/-- Mongo `$set` with payload `p`: overwrite each payload field in turn. -/
def apply_set (d : Doc) : Doc → Doc
  | [] => d
  | (k, v) :: rest => apply_set (set_key d k v) rest

/-- Hexadecimal digit, as accepted by `bson.ObjectId`. -/
def is_hex_char (c : Char) : Bool :=
  c.isDigit || ('a' ≤ c && c ≤ 'f') || ('A' ≤ c && c ≤ 'F')

/-- `ObjectId(s)` for a string argument: succeeds exactly on 24-character
hexadecimal strings, otherwise the constructor raises. -/
def parse_object_id (s : String) : Option String :=
  if s.length = 24 && s.data.all is_hex_char then some s else none

/-- Outcome of a delete/update request, as mapped to HTTP by `main.py`:
success, `HTTPException(404)`, or the catch-all `HTTPException(500)`. -/
inductive ApiOutcome where
  | ok
  | notFound
  | serverError
deriving DecidableEq, Repr

/-- The HTTP status code carried by each outcome. -/
def http_status : ApiOutcome → Nat
  | ApiOutcome.ok => 200
  | ApiOutcome.notFound => 404
  | ApiOutcome.serverError => 500

/-- Does document `d` have `_id` equal to the object id `oid`? -/
def has_id (oid : String) (d : Doc) : Bool :=
  if dget d "_id" = some (Value.str oid) then true else false

/-- `delete_one({"_id": oid})`: remove the first matching document. -/
def delete_first : List Doc → String → List Doc
  | [], _ => []
  | d :: ds, oid => if has_id oid d then ds else d :: delete_first ds oid

/-- `update_one({"_id": oid}, {"$set": p})`: apply `p` to the first
matching document. -/
def update_first : List Doc → String → Doc → List Doc
  | [], _, _ => []
  | d :: ds, oid, p =>
      if has_id oid d then apply_set d p :: ds else d :: update_first ds oid p

/-- Lines 107-108 of `main.py`: `payload.pop("_id", None)` followed by
`payload["updated_at"] = payload.get("updated_at")`. -/
def transform_payload (p : Doc) : Doc :=
  set_key (erase_key p "_id") "updated_at" ((dget p "updated_at").getD Value.null)

/-- `DELETE /api/notes/{note_id}` (`delete_note` in `main.py`).  The
database is `none` when `db is None`; a malformed id raises in
`ObjectId` and is caught as a 500; `deleted_count == 0` yields the 404.
Returns the outcome and the resulting collection. -/
def delete_note (db : Option (List Doc)) (note_id : String) :
    ApiOutcome × Option (List Doc) :=
  match db with
  | none => (ApiOutcome.serverError, none)
  | some docs =>
    match parse_object_id note_id with
    | none => (ApiOutcome.serverError, some docs)
    | some oid =>
        if docs.any (has_id oid) then (ApiOutcome.ok, some (delete_first docs oid))
        else (ApiOutcome.notFound, some docs)

/-- `PATCH /api/notes/{note_id}` (`update_note` in `main.py`).  The
payload is transformed (drop `_id`, force `updated_at`), then
`update_one` runs; `matched_count == 0` yields the 404; a malformed id
raises in `ObjectId` and is caught as a 500. -/
def update_note (db : Option (List Doc)) (note_id : String) (payload : Doc) :
    ApiOutcome × Option (List Doc) :=
  match db with
  | none => (ApiOutcome.serverError, none)
  | some docs =>
    let p := transform_payload payload
    match parse_object_id note_id with
    | none => (ApiOutcome.serverError, some docs)
    | some oid =>
        if docs.any (has_id oid) then (ApiOutcome.ok, some (update_first docs oid p))
        else (ApiOutcome.notFound, some docs)

/-- The `tags` field of a stored document: the stored array, or the
empty tag set when the field is absent or not an array. -/
def doc_tags (d : Doc) : List String :=
  match dget d "tags" with
  | some (Value.arr vs) => vs
  | _ => []

/-- The note's `is_pinned`, defaulting to false when absent (`main.py`
line 83 `d.get("is_pinned", False)`; same default in the data model). -/
def doc_pinned (d : Doc) : Bool :=
  match dget d "is_pinned" with
  | some (Value.bool b) => b
  | _ => false

/-- The note's `title`, defaulting to the empty string when absent. -/
def doc_title (d : Doc) : String :=
  match dget d "title" with
  | some (Value.str s) => s
  | _ => ""

/-- The note's `content`, defaulting to the empty string when absent. -/
def doc_content (d : Doc) : String :=
  match dget d "content" with
  | some (Value.str s) => s
  | _ => ""

/-- The note's `created_at`, defaulting to the low value 0 when absent
(`main.py` line 83 `d.get("created_at", 0)`). -/
def doc_created (d : Doc) : Int :=
  match dget d "created_at" with
  | some (Value.int n) => n
  | _ => 0

/-- ASCII lower-casing of one character. -/
def lower_char (c : Char) : Char :=
  if c.toNat ≥ 65 && c.toNat ≤ 90 then Char.ofNat (c.toNat + 32) else c

/-- Does `hay` start with `needle`? -/
def leads_with : List Char → List Char → Bool
  | [], _ => true
  | _ :: _, [] => false
  | a :: as, b :: bs => if a = b then leads_with as bs else false

/-- Does `needle` occur contiguously inside `hay`? -/
def has_sub (needle : List Char) : List Char → Bool
  | [] => leads_with needle []
  | c :: rest => leads_with needle (c :: rest) || has_sub needle rest

/-- Modelled from the spec: the `q` filter is a case-insensitive
substring match (`database.py`, which applies the store query, is not
in the sources; §4.1 of the spec describes the match).  Case folding is
modelled on ASCII letters. -/
def contains_ci (hay needle : String) : Bool :=
  has_sub (needle.data.map lower_char) (hay.data.map lower_char)

/-- Python truthiness of an optional string (`if tag:` / `if q:`):
true exactly for a present, non-empty string. -/
def truthy_str : Option String → Bool
  | none => false
  | some s => if s = "" then false else true

/-- The `filter_dict` built by `list_notes` (`main.py` lines 71-80):
an optional `{"tags": {"$in": [tag]}}` clause, an optional
`{"is_pinned": pinned}` clause, and an optional `$or` regex clause. -/
structure FilterDict where
  tags_in : Option String
  pinned_eq : Option Bool
  q_or : Option String
deriving DecidableEq, Repr

/-- `main.py` lines 71-80: the filter is populated only for truthy
`tag`/`q` and for `pinned is not None`. -/
def build_filter (tag q : Option String) (pinned : Option Bool) : FilterDict :=
  { tags_in := if truthy_str tag then tag else none
    pinned_eq := pinned
    q_or := if truthy_str q then q else none }

/-- Exact, case-sensitive membership of `t` in a tag list. -/
def tag_member (t : String) : List String → Bool
  | [] => false
  | s :: rest => if s = t then true else tag_member t rest

/-- Modelled from the spec: application of the filter to one stored
document (`database.py`'s `get_documents` is not in the sources).
Per §4.1: exact membership for `tag`, exact boolean match for `pinned`,
case-insensitive substring over `title` OR `content` for `q`; the
clauses combine with AND. -/
def matches_filter (f : FilterDict) (d : Doc) : Bool :=
  (match f.tags_in with
   | none => true
   | some t => tag_member t (doc_tags d))
  && (match f.pinned_eq with
      | none => true
      | some b => doc_pinned d == b)
  && (match f.q_or with
      | none => true
      | some s => contains_ci (doc_title d) s || contains_ci (doc_content d) s)

/-- Modelled from the spec: `get_documents("note", filter_dict)`
(`database.py` is not in the sources) returns the matching documents in
store order. -/
def get_documents (store : List Doc) (f : FilterDict) : List Doc :=
  store.filter (fun d => matches_filter f d)

/-- First component of the Python sort key `not d.get("is_pinned", False)`:
0 for pinned, 1 for unpinned, so pinned documents sort first. -/
def np (d : Doc) : Nat := if doc_pinned d then 0 else 1

/-- Comparison used by `docs.sort(key=lambda d: (not is_pinned, created_at))`:
lexicographic on (not pinned, created_at-default-0). -/
def sort_key_le (a b : Doc) : Prop :=
  np a < np b ∨ (np a = np b ∧ doc_created a ≤ doc_created b)

instance sort_key_le_dec : DecidableRel sort_key_le := fun a b =>
  inferInstanceAs (Decidable (np a < np b ∨ (np a = np b ∧ doc_created a ≤ doc_created b)))

instance : IsTotal Doc sort_key_le :=
  ⟨fun a b => by
    unfold sort_key_le
    rcases Nat.lt_trichotomy (np a) (np b) with h | h | h
    · exact Or.inl (Or.inl h)
    · rcases le_total (doc_created a) (doc_created b) with h2 | h2
      · exact Or.inl (Or.inr ⟨h, h2⟩)
      · exact Or.inr (Or.inr ⟨h.symm, h2⟩)
    · exact Or.inr (Or.inl h)⟩

instance : IsTrans Doc sort_key_le :=
  ⟨fun a b c hab hbc => by
    unfold sort_key_le at *
    rcases hab with h1 | ⟨h1, h1'⟩ <;> rcases hbc with h2 | ⟨h2, h2'⟩
    · exact Or.inl (h1.trans h2)
    · exact Or.inl (h2 ▸ h1)
    · exact Or.inl (h1 ▸ h2)
    · exact Or.inr ⟨h1.trans h2, le_trans h1' h2'⟩⟩

/-- `GET /api/notes` up to serialization (`main.py` lines 71-83): filter
the store, then sort pinned-first / `created_at` ascending.  Python's
`list.sort` is a stable ascending sort, embedded as the stable
`insertionSort`. -/
def list_notes_docs (store : List Doc) (tag q : Option String)
    (pinned : Option Bool) : List Doc :=
  List.insertionSort sort_key_le (get_documents store (build_filter tag q pinned))

/-- The API-level note (`NoteOut` in `main.py`): the concretely typed
serialized form. -/
structure NoteOut where
  id : String
  title : String
  content : String
  tags : List String
  color : Option String
  is_pinned : Bool
  mood : Option String
deriving DecidableEq, Repr

/-- `doc.get(k, dflt)` validated as text: the default when absent, the
string when present, a validation failure otherwise. -/
def as_str_default : Option Value → String → Option String
  | none, dflt => some dflt
  | some (Value.str s), _ => some s
  | some _, _ => none

/-- `doc.get(k, dflt)` validated as boolean. -/
def as_bool_default : Option Value → Bool → Option Bool
  | none, dflt => some dflt
  | some (Value.bool b), _ => some b
  | some _, _ => none

/-- `doc.get(k)` validated as optional text (absent and null both give
an unset optional field). -/
def as_opt_str : Option Value → Option (Option String)
  | none => some none
  | some Value.null => some none
  | some (Value.str s) => some (some s)
  | some _ => none

/-- `doc.get("tags", [])` validated as a list of labels. -/
def as_tags : Option Value → Option (List String)
  | none => some []
  | some (Value.arr vs) => some vs
  | some _ => none

/-- `str(doc.get("_id"))`. -/
def id_string : Option Value → String
  | some (Value.str s) => s
  | _ => "None"

/-- `serialize_note` (`main.py` lines 49-58), with the pydantic `Note`
validation modelled from the spec (`schemas.py` is not in the sources):
each field is strictly typed per §3, and a type mismatch is a
validation failure (`none`). -/
def serialize_note (d : Doc) : Option NoteOut :=
  (as_str_default (dget d "title") "").bind fun t =>
  (as_str_default (dget d "content") "").bind fun c =>
  (as_tags (dget d "tags")).bind fun tg =>
  (as_opt_str (dget d "color")).bind fun co =>
  (as_bool_default (dget d "is_pinned") false).bind fun pb =>
  (as_opt_str (dget d "mood")).map fun mo =>
    { id := id_string (dget d "_id"), title := t, content := c,
      tags := tg, color := co, is_pinned := pb, mood := mo }

/-- `GET /api/notes` (`list_notes` in `main.py`): the filtered, sorted,
serialized notes. -/
def list_notes (store : List Doc) (tag q : Option String)
    (pinned : Option Bool) : List (Option NoteOut) :=
  (list_notes_docs store tag q pinned).map serialize_note

/-- The inclusion predicate of the list claim exactly as stated: absent
means the query parameter was not supplied at all. -/
def claim_pred (tag q : Option String) (pinned : Option Bool) (d : Doc) : Bool :=
  (match tag with
   | none => true
   | some t => tag_member t (doc_tags d))
  && (match pinned with
      | none => true
      | some b => doc_pinned d == b)
  && (match q with
      | none => true
      | some s => contains_ci (doc_title d) s || contains_ci (doc_content d) s)

/-- The inclusion predicate amended as the code forces: a supplied but
EMPTY `tag` or `q` is treated as an absent filter. -/
def claim_pred_amended (tag q : Option String) (pinned : Option Bool)
    (d : Doc) : Bool :=
  (match tag with
   | none => true
   | some t => if t = "" then true else tag_member t (doc_tags d))
  && (match pinned with
      | none => true
      | some b => doc_pinned d == b)
  && (match q with
      | none => true
      | some s => if s = "" then true
          else contains_ci (doc_title d) s || contains_ci (doc_content d) s)

/-- The pinned note A with `created_at = 5` of the ordering claim. -/
def noteA : Doc :=
  [("_id", Value.str "a00000000000000000000001"),
   ("is_pinned", Value.bool true), ("created_at", Value.int 5)]

/-- The unpinned note B with `created_at = 1` of the ordering claim. -/
def noteB : Doc :=
  [("_id", Value.str "b00000000000000000000002"),
   ("is_pinned", Value.bool false), ("created_at", Value.int 1)]

/-- The pinned note C with `created_at = 2` of the ordering claim. -/
def noteC : Doc :=
  [("_id", Value.str "c00000000000000000000003"),
   ("is_pinned", Value.bool true), ("created_at", Value.int 2)]

/-- A stored note whose tag set does not contain the empty string: a
listing with `tag=""` still returns it. -/
def cex_doc : Doc :=
  [("_id", Value.str "d00000000000000000000004"),
   ("title", Value.str "t"), ("content", Value.str "c"),
   ("tags", Value.arr ["x"])]

/-- The concrete record used to exhibit the `updated_at` slip of the
PATCH handler. -/
def doc3 : Doc :=
  [("_id", Value.str "aaaaaaaaaaaaaaaaaaaaaaaa"),
   ("title", Value.str "old"),
   ("updated_at", Value.int 99)]

/-- The serialization of a document with every field absent. -/
def empty_note_out : NoteOut :=
  { id := "None", title := "", content := "", tags := [], color := none,
    is_pinned := false, mood := none }

/-- The store state seen by `GET /test`: `db` is `None`, or the trivial
operation `list_collection_names()` succeeds, or it raises with the
given exception text. -/
inductive DbState where
  | unavailable
  | connected (collections : List String)
  | failing (msg : String)
deriving DecidableEq, Repr

/-- The JSON body answered by `GET /test`. -/
structure TestResponse where
  backend : String
  database : String
  collections : Option (List String)
deriving DecidableEq, Repr

/-- `GET /test` (`test_database` in `main.py`): a total function of the
store state — the handler catches every exception into the body, so it
never raises.  On failure the message is truncated to its first 120
characters (`str(e)[:120]`). -/
def test_database : DbState → TestResponse
  | DbState.unavailable =>
      { backend := "✅ Running", database := "❌ Not Connected",
        collections := none }
  | DbState.connected cs =>
      { backend := "✅ Running", database := "✅ Connected",
        collections := some cs }
  | DbState.failing msg =>
      { backend := "✅ Running", database := "❌ Error: " ++ msg.take 120,
        collections := none }

@[simp] theorem dget_nil (k : String) : dget [] k = none := rfl

@[simp] theorem dget_cons (k k' : String) (v : Value) (d : Doc) :
    dget ((k, v) :: d) k' = if k = k' then some v else dget d k' := rfl

theorem dget_set_key_self (d : Doc) (k : String) (v : Value) :
    dget (set_key d k v) k = some v := by
  induction d with
  | nil => simp [set_key]
  | cons hd tl ih =>
      obtain ⟨k', v'⟩ := hd
      by_cases h : k' = k
      · simp [set_key, h]
      · simp [set_key, h, ih]

theorem dget_set_key_ne (d : Doc) (k k' : String) (v : Value) (h : k' ≠ k) :
    dget (set_key d k v) k' = dget d k' := by
  induction d with
  | nil =>
      show dget [(k, v)] k' = none
      rw [dget_cons, if_neg (fun hk => h hk.symm), dget_nil]
  | cons hd tl ih =>
      obtain ⟨k0, v0⟩ := hd
      by_cases h0 : k0 = k
      · subst h0
        rw [set_key, if_pos rfl, dget_cons, dget_cons,
          if_neg (fun hk => h hk.symm), if_neg (fun hk => h hk.symm)]
      · rw [set_key, if_neg h0, dget_cons, dget_cons]
        by_cases h1 : k0 = k'
        · rw [if_pos h1, if_pos h1]
        · rw [if_neg h1, if_neg h1, ih]

theorem dget_apply_set_of_not_mem (p : Doc) (d : Doc) (k : String)
    (h : k ∉ p.map Prod.fst) : dget (apply_set d p) k = dget d k := by
  induction p generalizing d with
  | nil => rfl
  | cons hd tl ih =>
      obtain ⟨k0, v0⟩ := hd
      simp only [List.map_cons, List.mem_cons] at h
      push_neg at h
      rw [apply_set, ih (set_key d k0 v0) h.2, dget_set_key_ne _ _ _ _ h.1]

theorem keys_set_key_subset (d : Doc) (k k' : String) (v : Value)
    (h : k' ∈ (set_key d k v).map Prod.fst) :
    k' ∈ d.map Prod.fst ∨ k' = k := by
  induction d with
  | nil =>
      right
      simpa [set_key] using h
  | cons hd tl ih =>
      obtain ⟨k0, v0⟩ := hd
      by_cases h0 : k0 = k
      · rw [set_key, if_pos h0] at h
        simp only [List.map_cons, List.mem_cons] at h ⊢
        rcases h with h | h
        · exact Or.inr h
        · exact Or.inl (Or.inr h)
      · rw [set_key, if_neg h0] at h
        simp only [List.map_cons, List.mem_cons] at h ⊢
        rcases h with h | h
        · exact Or.inl (Or.inl h)
        · rcases ih h with h' | h'
          · exact Or.inl (Or.inr h')
          · exact Or.inr h'

theorem keys_erase_key_subset (d : Doc) (k k' : String)
    (h : k' ∈ (erase_key d k).map Prod.fst) : k' ∈ d.map Prod.fst := by
  induction d with
  | nil => simp [erase_key] at h
  | cons hd tl ih =>
      obtain ⟨k0, v0⟩ := hd
      by_cases h0 : k0 = k
      · rw [erase_key, if_pos h0] at h
        simp only [List.map_cons, List.mem_cons]
        exact Or.inr h
      · rw [erase_key, if_neg h0] at h
        simp only [List.map_cons, List.mem_cons] at h ⊢
        rcases h with h | h
        · exact Or.inl h
        · exact Or.inr (ih h)

theorem not_mem_keys_erase_key_self (d : Doc) (k : String)
    (hnd : (d.map Prod.fst).Nodup) : k ∉ (erase_key d k).map Prod.fst := by
  induction d with
  | nil => simp [erase_key]
  | cons hd tl ih =>
      obtain ⟨k0, v0⟩ := hd
      simp only [List.map_cons, List.nodup_cons] at hnd
      by_cases h0 : k0 = k
      · subst h0
        rw [erase_key, if_pos rfl]
        exact hnd.1
      · rw [erase_key, if_neg h0]
        simp only [List.map_cons, List.mem_cons]
        push_neg
        exact ⟨fun hk => h0 hk.symm, ih hnd.2⟩

theorem nodup_keys_erase_key (d : Doc) (k : String)
    (hnd : (d.map Prod.fst).Nodup) : ((erase_key d k).map Prod.fst).Nodup := by
  induction d with
  | nil => simp [erase_key]
  | cons hd tl ih =>
      obtain ⟨k0, v0⟩ := hd
      simp only [List.map_cons, List.nodup_cons] at hnd
      by_cases h0 : k0 = k
      · rw [erase_key, if_pos h0]
        exact hnd.2
      · rw [erase_key, if_neg h0]
        simp only [List.map_cons, List.nodup_cons]
        exact ⟨fun hmem => hnd.1 (keys_erase_key_subset tl k k0 hmem), ih hnd.2⟩

theorem nodup_keys_set_key (d : Doc) (k : String) (v : Value)
    (hnd : (d.map Prod.fst).Nodup) : ((set_key d k v).map Prod.fst).Nodup := by
  induction d with
  | nil => simp [set_key]
  | cons hd tl ih =>
      obtain ⟨k0, v0⟩ := hd
      simp only [List.map_cons, List.nodup_cons] at hnd
      by_cases h0 : k0 = k
      · rw [set_key, if_pos h0]
        simp only [List.map_cons, List.nodup_cons]
        exact ⟨h0 ▸ hnd.1, hnd.2⟩
      · rw [set_key, if_neg h0]
        simp only [List.map_cons, List.nodup_cons]
        refine ⟨fun hmem => ?_, ih hnd.2⟩
        rcases keys_set_key_subset tl k k0 v hmem with h' | h'
        · exact hnd.1 h'
        · exact h0 h'

theorem dget_apply_set_of_dget (p : Doc) (d : Doc) (k : String) (v : Value)
    (hnd : (p.map Prod.fst).Nodup) (hv : dget p k = some v) :
    dget (apply_set d p) k = some v := by
  induction p generalizing d with
  | nil => simp [dget] at hv
  | cons hd tl ih =>
      obtain ⟨k0, v0⟩ := hd
      simp only [List.map_cons, List.nodup_cons] at hnd
      by_cases h0 : k0 = k
      · subst h0
        rw [dget_cons, if_pos rfl] at hv
        cases hv
        rw [apply_set, dget_apply_set_of_not_mem tl _ _ hnd.1,
          dget_set_key_self]
      · rw [dget_cons, if_neg h0] at hv
        rw [apply_set]
        exact ih _ hnd.2 hv

theorem dget_transform_payload_updated_at (p : Doc) :
    dget (transform_payload p) "updated_at" =
      some ((dget p "updated_at").getD Value.null) := by
  unfold transform_payload
  exact dget_set_key_self _ _ _

theorem not_mem_keys_transform_payload_id (p : Doc)
    (hnd : (p.map Prod.fst).Nodup) :
    "_id" ∉ (transform_payload p).map Prod.fst := by
  unfold transform_payload
  intro hmem
  rcases keys_set_key_subset _ _ _ _ hmem with h | h
  · exact not_mem_keys_erase_key_self p "_id" hnd h
  · exact absurd h (by decide)

theorem nodup_keys_transform_payload (p : Doc) (hnd : (p.map Prod.fst).Nodup) :
    ((transform_payload p).map Prod.fst).Nodup :=
  nodup_keys_set_key _ _ _ (nodup_keys_erase_key _ _ hnd)

theorem update_first_map_id (docs : List Doc) (oid : String) (p : Doc)
    (h : "_id" ∉ p.map Prod.fst) :
    (update_first docs oid p).map (fun d0 => dget d0 "_id")
      = docs.map (fun d0 => dget d0 "_id") := by
  induction docs with
  | nil => rfl
  | cons d ds ih =>
      by_cases hid : has_id oid d
      · rw [update_first, if_pos hid]
        simp only [List.map_cons]
        rw [dget_apply_set_of_not_mem p d "_id" h]
      · rw [update_first, if_neg hid]
        simp only [List.map_cons]
        rw [ih]

/-- C4: the update pipeline stores in `updated_at` exactly the value the
caller supplied, or null when the payload has no `updated_at` key; the
transformed payload and the `$set`-updated record both carry that value
(there is no clock anywhere in the pipeline). -/
theorem update_updated_at_from_payload (p d : Doc)
    (hnd : (p.map Prod.fst).Nodup) :
    dget (transform_payload p) "updated_at"
        = some ((dget p "updated_at").getD Value.null)
    ∧ dget (apply_set d (transform_payload p)) "updated_at"
        = some ((dget p "updated_at").getD Value.null) :=
  ⟨dget_transform_payload_updated_at p,
   dget_apply_set_of_dget _ d _ _ (nodup_keys_transform_payload p hnd)
     (dget_transform_payload_updated_at p)⟩

theorem update_updated_at_from_payload_witness :
    dget (transform_payload [("x", Value.int 1)]) "updated_at"
        = some ((dget [("x", Value.int 1)] "updated_at").getD Value.null)
    ∧ dget (apply_set [] (transform_payload [("x", Value.int 1)])) "updated_at"
        = some ((dget [("x", Value.int 1)] "updated_at").getD Value.null) :=
  update_updated_at_from_payload [("x", Value.int 1)] [] (by decide)

/-- C7: `_id` is stripped from the payload, so applying any update
payload (in particular one containing an `_id` key) leaves the record's
`_id` unchanged, and a whole `update_note` call leaves every stored
document's `_id` in place. -/
theorem update_preserves_id (p d : Doc) (docs : List Doc) (note_id : String)
    (hnd : (p.map Prod.fst).Nodup) :
    dget (apply_set d (transform_payload p)) "_id" = dget d "_id"
    ∧ ∀ o s', update_note (some docs) note_id p = (o, some s') →
        s'.map (fun d0 => dget d0 "_id") = docs.map (fun d0 => dget d0 "_id") := by
  constructor
  · exact dget_apply_set_of_not_mem _ d _ (not_mem_keys_transform_payload_id p hnd)
  · intro o s' h
    unfold update_note at h
    cases hp : parse_object_id note_id with
    | none =>
        rw [hp] at h
        simp only at h
        cases h
        rfl
    | some oid =>
        rw [hp] at h
        simp only at h
        by_cases hany : docs.any (has_id oid)
        · rw [if_pos hany] at h
          cases h
          exact update_first_map_id docs oid _
            (not_mem_keys_transform_payload_id p hnd)
        · rw [if_neg hany] at h
          cases h
          rfl

theorem update_preserves_id_witness :
    dget (apply_set [("_id", Value.str "a")]
        (transform_payload [("_id", Value.str "b")])) "_id"
      = dget [("_id", Value.str "a")] "_id" :=
  (update_preserves_id [("_id", Value.str "b")] [("_id", Value.str "a")] [] "x"
    (by decide)).1

/-- C5: when the identifier parses but matches no stored record, both
delete and update answer 404 (computed from the zero affected-record
count) and leave the store unchanged; 404 is distinct from the generic
500 failure. -/
theorem not_found_on_missing_id (store : List Doc) (note_id oid : String)
    (payload : Doc)
    (hp : parse_object_id note_id = some oid)
    (hno : ∀ d ∈ store, dget d "_id" ≠ some (Value.str oid)) :
    delete_note (some store) note_id = (ApiOutcome.notFound, some store)
    ∧ update_note (some store) note_id payload = (ApiOutcome.notFound, some store)
    ∧ http_status ApiOutcome.notFound = 404
    ∧ http_status ApiOutcome.serverError = 500
    ∧ ApiOutcome.notFound ≠ ApiOutcome.serverError := by
  have hany : store.any (has_id oid) = false := by
    rw [List.any_eq_false]
    intro d hd
    simp only [has_id]
    rw [if_neg (hno d hd)]
    simp
  refine ⟨?_, ?_, rfl, rfl, by decide⟩
  · simp [delete_note, hp, hany]
  · simp [update_note, hp, hany]

theorem not_found_on_missing_id_witness :
    delete_note (some []) "aaaaaaaaaaaaaaaaaaaaaaaa"
        = (ApiOutcome.notFound, some [])
    ∧ update_note (some []) "aaaaaaaaaaaaaaaaaaaaaaaa" []
        = (ApiOutcome.notFound, some [])
    ∧ http_status ApiOutcome.notFound = 404
    ∧ http_status ApiOutcome.serverError = 500
    ∧ ApiOutcome.notFound ≠ ApiOutcome.serverError :=
  not_found_on_missing_id [] "aaaaaaaaaaaaaaaaaaaaaaaa"
    "aaaaaaaaaaaaaaaaaaaaaaaa" [] (by decide)
    (fun d hd => absurd hd (List.not_mem_nil d))

/-- C8: an identifier that is not a valid ObjectId makes both delete and
update fail with the generic 500 (the raised constructor error lands in
the catch-all), the store is untouched, and the outcome is not the
not-found one. -/
theorem invalid_object_id_server_error (store : List Doc) (note_id : String)
    (payload : Doc)
    (hp : parse_object_id note_id = none) :
    delete_note (some store) note_id = (ApiOutcome.serverError, some store)
    ∧ update_note (some store) note_id payload
        = (ApiOutcome.serverError, some store)
    ∧ http_status ApiOutcome.serverError = 500
    ∧ ApiOutcome.serverError ≠ ApiOutcome.notFound := by
  refine ⟨?_, ?_, rfl, by decide⟩ <;> simp [delete_note, update_note, hp]

theorem invalid_object_id_server_error_witness :
    delete_note (some []) "nope" = (ApiOutcome.serverError, some [])
    ∧ update_note (some []) "nope" [] = (ApiOutcome.serverError, some [])
    ∧ http_status ApiOutcome.serverError = 500
    ∧ ApiOutcome.serverError ≠ ApiOutcome.notFound :=
  invalid_object_id_server_error [] "nope" [] (by decide)

/-- C3: updating an existing note with payload `{"title": "new"}` does
NOT change only `title`: line 108 of `main.py` forces `updated_at` into
the payload, so the stored `updated_at` is overwritten with null. -/
theorem update_title_also_nulls_updated_at :
    update_note (some [doc3]) "aaaaaaaaaaaaaaaaaaaaaaaa"
        [("title", Value.str "new")]
      = (ApiOutcome.ok,
         some [[("_id", Value.str "aaaaaaaaaaaaaaaaaaaaaaaa"),
                ("title", Value.str "new"),
                ("updated_at", Value.null)]])
    ∧ dget doc3 "updated_at" = some (Value.int 99)
    ∧ dget doc3 "updated_at" ≠ some Value.null := by decide

theorem matches_filter_build_eq (tag q : Option String) (pinned : Option Bool)
    (d : Doc) :
    matches_filter (build_filter tag q pinned) d
      = claim_pred_amended tag q pinned d := by
  cases tag with
  | none =>
      cases q with
      | none => rfl
      | some s =>
          by_cases hs : s = "" <;>
            simp [matches_filter, build_filter, truthy_str,
              claim_pred_amended, hs]
  | some t =>
      cases q with
      | none =>
          by_cases ht : t = "" <;>
            simp [matches_filter, build_filter, truthy_str,
              claim_pred_amended, ht]
      | some s =>
          by_cases ht : t = "" <;> by_cases hs : s = "" <;>
            simp [matches_filter, build_filter, truthy_str,
              claim_pred_amended, ht, hs]

/-- C1 (amended): a stored note is listed iff it satisfies the AND of
the three optional filters, where a supplied but empty `tag` or `q` is
treated as an absent filter — `main.py` uses Python truthiness
(`if tag:` / `if q:`), so the empty string never filters. -/
theorem list_notes_match_amended (store : List Doc) (tag q : Option String)
    (pinned : Option Bool) (d : Doc) :
    d ∈ list_notes_docs store tag q pinned
      ↔ d ∈ store ∧ claim_pred_amended tag q pinned d = true := by
  unfold list_notes_docs get_documents
  rw [List.mem_insertionSort, List.mem_filter, matches_filter_build_eq]

/-- C1 as stated is false at `tag = some ""`: the note `cex_doc`, whose
tag set is `["x"]`, is returned by a listing with `tag=""` even though
`""` is not a member of its tags. -/
theorem list_notes_match_cex :
    cex_doc ∈ list_notes_docs [cex_doc] (some "") none none
    ∧ claim_pred (some "") none none cex_doc = false := by decide

/-- C10: listing with `tag=""` or `q=""` behaves exactly like listing
with that parameter omitted, both before and after serialization. -/
theorem empty_string_filters_ignored (store : List Doc) (tag q : Option String)
    (pinned : Option Bool) :
    list_notes_docs store (some "") q pinned = list_notes_docs store none q pinned
    ∧ list_notes_docs store tag (some "") pinned
        = list_notes_docs store tag none pinned
    ∧ list_notes store (some "") q pinned = list_notes store none q pinned
    ∧ list_notes store tag (some "") pinned = list_notes store tag none pinned := by
  have h1 : build_filter (some "") q pinned = build_filter none q pinned := by
    simp [build_filter, truthy_str]
  have h2 : build_filter tag (some "") pinned = build_filter tag none pinned := by
    simp [build_filter, truthy_str]
  refine ⟨?_, ?_, ?_, ?_⟩ <;>
    simp [list_notes, list_notes_docs, get_documents, h1, h2]

/-- C6: `GET /test` is a total function of the store state (every
exception is captured into the body), its `database` field takes one of
exactly three forms, and in the error form the message is the first 120
characters of the exception text. -/
theorem test_database_forms (s : DbState) :
    ((test_database s).database = "✅ Connected"
      ∨ (test_database s).database = "❌ Not Connected"
      ∨ ∃ m : String, (test_database s).database = "❌ Error: " ++ m.take 120)
    ∧ (∀ msg : String, s = DbState.failing msg →
        (test_database s).database = "❌ Error: " ++ msg.take 120)
    ∧ (test_database s).backend = "✅ Running" := by
  refine ⟨?_, ?_, ?_⟩
  · cases s with
    | unavailable => exact Or.inr (Or.inl rfl)
    | connected cs => exact Or.inl rfl
    | failing msg => exact Or.inr (Or.inr ⟨msg, rfl⟩)
  · intro msg h
    subst h
    rfl
  · cases s <;> rfl

theorem test_database_forms_witness :
    (test_database (DbState.failing "boom")).database
      = "❌ Error: " ++ "boom".take 120 :=
  (test_database_forms (DbState.failing "boom")).2.1 "boom" rfl

/-- C2: listing sorts the matching documents with the stable two-key
sort (pinned first, then `created_at` ascending): the result is sorted
for `sort_key_le`, is a permutation of the matching documents, and
every key-sorted subsequence of the matching documents survives in
order (stability); on A(pinned, 5), B(unpinned, 1), C(pinned, 2) the
result is [C, A, B]. -/
theorem list_notes_ordering :
    (∀ store (tag q : Option String) (pinned : Option Bool),
      (list_notes_docs store tag q pinned).Sorted sort_key_le
      ∧ (list_notes_docs store tag q pinned).Perm
          (get_documents store (build_filter tag q pinned))
      ∧ (∀ c : List Doc, c.Pairwise sort_key_le →
            c.Sublist (get_documents store (build_filter tag q pinned)) →
            c.Sublist (list_notes_docs store tag q pinned)))
    ∧ list_notes_docs [noteA, noteB, noteC] none none none
        = [noteC, noteA, noteB] := by
  constructor
  · intro store tag q pinned
    exact ⟨List.sorted_insertionSort sort_key_le _,
           List.perm_insertionSort sort_key_le _,
           fun c hp hs => List.sublist_insertionSort hp hs⟩
  · decide

theorem list_notes_ordering_witness :
    List.Sublist [noteA, noteB]
      (list_notes_docs [noteA, noteB, noteC] none none none) :=
  (list_notes_ordering.1 [noteA, noteB, noteC] none none none).2.2
    [noteA, noteB] (by decide) (by decide)

/-- C9: whenever a stored document serializes, `title` and `content`
come out as concrete strings defaulting to "", `is_pinned` as a concrete
boolean defaulting to false, and `tags` as a concrete list defaulting to
[] — and a document with no `tags` field serializes exactly like the
same document with an explicit empty tag array. -/
theorem serialize_note_defaults (d : Doc) (n : NoteOut)
    (h : serialize_note d = some n) :
    (dget d "title" = none → n.title = "")
    ∧ (dget d "content" = none → n.content = "")
    ∧ (dget d "is_pinned" = none → n.is_pinned = false)
    ∧ (dget d "tags" = none → n.tags = []
        ∧ serialize_note (("tags", Value.arr []) :: d) = some n) := by
  unfold serialize_note at h
  simp only [Option.bind_eq_some, Option.map_eq_some'] at h
  obtain ⟨t, ht, c, hc, tg, htg, co, hco, pb, hpb, mo, hmo, hn⟩ := h
  subst hn
  refine ⟨?_, ?_, ?_, ?_⟩
  · intro habs
    rw [habs] at ht
    simp only [as_str_default, Option.some.injEq] at ht
    subst ht
    rfl
  · intro habs
    rw [habs] at hc
    simp only [as_str_default, Option.some.injEq] at hc
    subst hc
    rfl
  · intro habs
    rw [habs] at hpb
    simp only [as_bool_default, Option.some.injEq] at hpb
    subst hpb
    rfl
  · intro habs
    rw [habs] at htg
    simp only [as_tags, Option.some.injEq] at htg
    subst htg
    refine ⟨rfl, ?_⟩
    unfold serialize_note
    have e1 : dget (("tags", Value.arr []) :: d) "title" = dget d "title" := by
      rw [dget_cons, if_neg (by decide)]
    have e2 : dget (("tags", Value.arr []) :: d) "content" = dget d "content" := by
      rw [dget_cons, if_neg (by decide)]
    have e3 : dget (("tags", Value.arr []) :: d) "tags" = some (Value.arr []) := by
      rw [dget_cons, if_pos rfl]
    have e4 : dget (("tags", Value.arr []) :: d) "color" = dget d "color" := by
      rw [dget_cons, if_neg (by decide)]
    have e5 : dget (("tags", Value.arr []) :: d) "is_pinned" = dget d "is_pinned" := by
      rw [dget_cons, if_neg (by decide)]
    have e6 : dget (("tags", Value.arr []) :: d) "mood" = dget d "mood" := by
      rw [dget_cons, if_neg (by decide)]
    have e7 : dget (("tags", Value.arr []) :: d) "_id" = dget d "_id" := by
      rw [dget_cons, if_neg (by decide)]
    rw [e1, e2, e3, e4, e5, e6, e7, ht, hc, hco, hpb, hmo]
    simp [as_tags]

theorem serialize_note_defaults_witness :
    serialize_note [] = some empty_note_out
    ∧ empty_note_out.title = ""
    ∧ empty_note_out.is_pinned = false
    ∧ empty_note_out.tags = []
    ∧ serialize_note [("tags", Value.arr [])] = some empty_note_out := by
  have h : serialize_note [] = some empty_note_out := rfl
  have hd := serialize_note_defaults [] empty_note_out h
  exact ⟨h, hd.1 rfl, hd.2.2.1 rfl, (hd.2.2.2 rfl).1, (hd.2.2.2 rfl).2⟩
